import Mathlib

/-!
Verification development for the orion-ai decision-and-streaming pipeline
(`backend/services/cache_service.py`, `backend/services/smart_router.py`,
`backend/orchestration/workflow.py`, `backend/agents/base_agent.py`).

Shallow embedding conventions:
* Python dicts of strings become insertion-ordered association lists
  (`Payload := List (String × String)`, `List CacheEntry`); Python dict
  truthiness is emptiness of the list.
* `time.time()` / `datetime.now()` become an explicit `now : Nat` parameter
  measured in seconds.
* The md5 key of `ResponseCache._generate_key` is modelled by the normalized
  string it hashes (the hash is deterministic and collision-free on the
  inputs considered; only key equality is observable).
* Fallible external calls (DB history, LLM generation, `json.loads`, the
  feature body) are oracle parameters of type `Except`/lists of chunks.
-/

set_option autoImplicit false
set_option maxRecDepth 100000

/-- A Python `dict[str, str]`-like payload: insertion-ordered association list. -/
abbrev Payload := List (String × String)

/-- Python `d.get(key)` / `d[key]` lookup on a payload. -/
def dictGet : Payload → String → Option String
  | [], _ => none
  | (k, v) :: rest, key => if k = key then some v else dictGet rest key

/-- Python `{**d, key: val}` / `d[key] = val`: replace in place keeping the
original position, else append. -/
def dictSet : Payload → String → String → Payload
  | [], key, val => [(key, val)]
  | (k, v) :: rest, key, val =>
    if k = key then (k, val) :: rest else (k, v) :: dictSet rest key val

/-- One stored cache entry (`cache_service.py` stores
`{key: {"data": ..., "timestamp": ...}}`; insertion order of the dict is the
order of the surrounding list). -/
structure CacheEntry where
  key : String
  data : Payload
  timestamp : Nat
deriving DecidableEq

/-- Python `self._cache.get(key)` over the insertion-ordered entry list. -/
def findEntry : List CacheEntry → String → Option CacheEntry
  | [], _ => none
  | e :: rest, key => if e.key = key then some e else findEntry rest key

/-- Python `del self._cache[key]` (removes the first entry with that key). -/
def eraseEntry : List CacheEntry → String → List CacheEntry
  | [], _ => []
  | e :: rest, key => if e.key = key then rest else e :: eraseEntry rest key

/-- Python `self._cache[key] = v`: overwrite in place keeping insertion
position, else append at the end. -/
def insertEntry : List CacheEntry → CacheEntry → List CacheEntry
  | [], e => [e]
  | x :: rest, e => if x.key = e.key then e :: rest else x :: insertEntry rest e

/-- `ResponseCache` state (`cache_service.py`): the entry list in insertion
order plus the configured `ttl_seconds` and `max_size`. -/
structure ResponseCache where
  cache : List CacheEntry
  ttl_seconds : Nat
  max_size : Nat
deriving DecidableEq

/-- Python `str.strip` whitespace class (ASCII part). -/
def isPySpace (c : Char) : Bool :=
  c == ' ' || c == '\t' || c == '\n' || c == '\r' || c == '\x0b' || c == '\x0c'

/-- Python `str.strip()`. -/
def pyStrip (s : String) : String :=
  String.mk (((s.data.dropWhile isPySpace).reverse.dropWhile isPySpace).reverse)

/-- Python `str.lower()` (ASCII case folding). -/
def pyLower (s : String) : String :=
  String.mk (s.data.map Char.toLower)

/-- `ResponseCache._generate_key`: normalize the input (strip + lowercase),
default the mode to "standard" when falsy, concatenate with `|`.  The md5
digest of this string is modelled by the string itself. -/
def generate_key (user_input mode : String) : String :=
  pyLower (pyStrip user_input) ++ "|" ++ (if mode = "" then "standard" else mode)

/-- `ResponseCache.get`: absent key gives `none`; an entry older than
`ttl_seconds` is deleted eagerly and reported as a miss; otherwise the stored
data is returned.  Returns the (possibly mutated) cache alongside the result,
since Python mutates `self._cache` in place. -/
def ResponseCache.get (c : ResponseCache) (user_input mode : String) (now : Nat) :
    Option Payload × ResponseCache :=
  let key := generate_key user_input mode
  match findEntry c.cache key with
  | none => (none, c)
  | some entry =>
    if now - entry.timestamp > c.ttl_seconds then
      (none, { c with cache := eraseEntry c.cache key })
    else
      (some entry.data, c)

/-- `ResponseCache.set`: when the entry count has reached `max_size`, delete
the first `int(max_size * 0.1)` keys in insertion order (the float truncation
equals Nat division by 10 for all realistic sizes), then store the new entry
with the current timestamp. -/
def ResponseCache.set (c : ResponseCache) (user_input : String) (response_data : Payload)
    (mode : String) (now : Nat) : ResponseCache :=
  let cache1 := if c.cache.length ≥ c.max_size
    then c.cache.drop (c.max_size / 10) else c.cache
  { c with cache := insertEntry cache1 ⟨generate_key user_input mode, response_data, now⟩ }

/-- `ResponseCache.clear`. -/
def ResponseCache.clear (c : ResponseCache) : ResponseCache :=
  { c with cache := [] }

/-- Zero-padded two-digit rendering used by the `%H:%M:%S` clock format. -/
def twoDigits (n : Nat) : String :=
  if n < 10 then "0" ++ toString n else toString n

/-- `datetime.datetime.now().strftime("%H:%M:%S")`, with `now` the current
local-time second counter. -/
def formatClock (now : Nat) : String :=
  let s := now % 86400
  twoDigits (s / 3600) ++ ":" ++ twoDigits (s % 3600 / 60) ++ ":" ++ twoDigits (s % 60)

/-- The markdown body of `SmartRouter.get_system_status_response`, embedding
the wall-clock time. -/
def statusContent (now : Nat) : String :=
  "### System Status Report\n| Component | Status | Latency | Uptime |\n| :--- | :--- | :--- | :--- |\n| **Neural Core** | [OK] Online | 2ms | 99.99% |\n| **Vector DB** | [OK] Online | 15ms | 99.95% |\n| **Gateway** | [OK] Online | 5ms | 100.00% |\n\n> [!NOTE]\n> All systems operational. Response generated locally at "
    ++ formatClock now ++ ".\n"

/-- `SmartRouter.get_system_status_response`. -/
def get_system_status_response (now : Nat) : Payload :=
  [("type", "status_report"), ("content", statusContent now)]

/-- `SmartRouter.get_identity_response`. -/
def get_identity_response : Payload :=
  [("type", "identity"),
   ("content", "I am **Sentinel AI**, a specialized artificial intelligence designed to optimize workflows, enhance decision-making, and provide deep technical support. I operate within this Universal Workspace to serve as your co-pilot in all digital endeavors.")]

/-- The canned greeting payload of `SmartRouter.route_request`. -/
def greetingPayload : Payload :=
  [("content", "Hello! I am Sentinel AI. How can I assist you with your operations today?"),
   ("source", "local")]

/-- Exact-match keywords of the status/health handler. -/
def statusKeywords : List String := ["status", "system status", "health", "uptime"]

/-- Substrings of the identity handler. -/
def identityKeywords : List String := ["who are you", "what are you", "identity"]

/-- Exact-match greeting keywords. -/
def greetingKeywords : List String := ["hello", "hi", "hey", "greetings"]

/-- Bool-valued check that `pat` is a prefix of `l`. -/
def isPrefixList : List Char → List Char → Bool
  | [], _ => true
  | _ :: _, [] => false
  | a :: as, b :: bs => a == b && isPrefixList as bs

/-- Bool-valued check that `pat` occurs as a contiguous sublist of `l`
(Python `pat in s` on strings). -/
def hasSubstrList (pat : List Char) : List Char → Bool
  | [] => isPrefixList pat []
  | b :: rest => isPrefixList pat (b :: rest) || hasSubstrList pat rest

/-- Python `pat in s` substring containment. -/
def strContainsSub (s pat : String) : Bool :=
  hasSubstrList pat.data s.data

/-- Python `any(x in normalized_input for x in identityKeywords)`. -/
def identityMatch (normalized_input : String) : Bool :=
  identityKeywords.any (fun x => strContainsSub normalized_input x)

/-- The fall-through region of `SmartRouter.route_request` after the cache
check: status/health exact matches, then identity substrings, then greeting
exact matches, then no match. -/
def localPatternDecision (normalized_input : String) (now : Nat) : Option Payload :=
  if normalized_input ∈ statusKeywords then
    some (dictSet (get_system_status_response now) "source" "local")
  else if identityMatch normalized_input then
    some (dictSet get_identity_response "source" "local")
  else if normalized_input ∈ greetingKeywords then
    some greetingPayload
  else
    none

/-- `SmartRouter.route_request`: cache lookup first (`if cached:` is Python
truthiness, so an empty-dict payload falls through), then the fixed local
patterns, else `None`.  Returns the possibly mutated cache (`get` deletes
expired entries). -/
def route_request (c : ResponseCache) (user_input : String) (mode : String) (now : Nat) :
    Option Payload × ResponseCache :=
  let normalized := pyStrip (pyLower user_input)
  let looked := ResponseCache.get c user_input mode now
  match looked.fst with
  | some p =>
    if p.isEmpty then (localPatternDecision normalized now, looked.snd)
    else (some (dictSet p "source" "cache"), looked.snd)
  | none => (localPatternDecision normalized now, looked.snd)

example : (route_request ⟨[], 3600, 1000⟩ "hello" "standard" 0).fst = some greetingPayload := by
  decide

example : (route_request ⟨[], 3600, 1000⟩ "  STATUS " "standard" 7).fst
    = some (dictSet (get_system_status_response 7) "source" "local") := by
  decide

/-- JSON values as produced by `json.loads` (floats are not needed by any
claim and are not modelled). -/
inductive JValue where
  | jnull
  | jbool (b : Bool)
  | jnum (n : Int)
  | jstr (s : String)
  | jarr (xs : List JValue)
  | jobj (fields : List (String × JValue))

mutual

/-- Python `repr` of a JSON value (used when a value is nested in a
container rendered into an f-string). -/
def pyRepr : JValue → String
  | JValue.jnull => "None"
  | JValue.jbool true => "True"
  | JValue.jbool false => "False"
  | JValue.jnum n => toString n
  | JValue.jstr s => "'" ++ s ++ "'"
  | JValue.jarr xs => "[" ++ String.intercalate ", " (pyReprList xs) ++ "]"
  | JValue.jobj fs => "\x7b" ++ String.intercalate ", " (pyReprFields fs) ++ "\x7d"

/-- `repr` of each element of a list. -/
def pyReprList : List JValue → List String
  | [] => []
  | v :: vs => pyRepr v :: pyReprList vs

/-- `repr` of each `key: value` pair of an object. -/
def pyReprFields : List (String × JValue) → List String
  | [] => []
  | (k, v) :: fs => ("'" ++ k ++ "': " ++ pyRepr v) :: pyReprFields fs

end

/-- Python `str()` of a JSON value, as interpolated by an f-string. -/
def pyStr : JValue → String
  | JValue.jstr s => s
  | v => pyRepr v

/-- Lookup in a parsed JSON object (`d[key]` / first component of `d.get`). -/
def jlookup : List (String × JValue) → String → Option JValue
  | [], _ => none
  | (k, v) :: rest, key => if k = key then some v else jlookup rest key

/-- A row of the external conversation store
(`db_manager.get_session_history`). -/
structure Msg where
  role : String
  content : String
deriving DecidableEq

/-- One chunk of `generate_content_stream` output, as read by the workflow
through `chunk.get("content")` / `chunk.get("finish_reason")` (a chunk
without those keys reads as empty content / `none`). -/
structure Chunk where
  content : String
  finish_reason : Option String
deriving DecidableEq

/-- A `{"type": ..., "content": ...}` event yielded by
`execute_workflow_stream`. -/
inductive Event where
  | thought (content : String)
  | action (content : String)
  | token (content : String)
  | error (content : String)
deriving DecidableEq

/-- Whether an event is an `error` event. -/
def Event.isErrorEvent : Event → Bool
  | Event.error _ => true
  | _ => false

/-- Outcomes of the external collaborators consumed by one run of
`execute_workflow_stream`.  `history` is the result of
`db_manager.get_session_history`; `planner` that of
`llm_service.generate_content` (a raised exception carries its message);
`planner_parsed` the result of `json.loads` on the fence-stripped planner
content; `feature_gen` the result of the `generate_ci_and_docker` body;
`chunks` the items yielded by `generate_content_stream`, and `stream_fault`
an exception the stream generator raises after its listed chunks. -/
structure WorkflowOracle where
  history : Except String (List Msg)
  planner : Except String Payload
  planner_parsed : Except String JValue
  feature_gen : Except String String
  chunks : List Chunk
  stream_fault : Option String

/-- The events of one run plus a raw (uncaught) exception when one escapes
the generator. -/
structure StreamResult where
  events : List Event
  raised : Option String
deriving DecidableEq

/-- `FeatureRegistry.run_feature`: dispatch on the name; an unknown name
returns an error *string* (it does not raise).  The argument is whatever
object `planner_decision.get("feature_name")` produced. -/
def run_feature (feature_name : JValue) (gen : Except String String) :
    Except String String :=
  match feature_name with
  | JValue.jstr s =>
    if s = "generate_ci_and_docker" then gen
    else Except.ok ("ERROR: Feature '" ++ s ++ "' not found.")
  | v => Except.ok ("ERROR: Feature '" ++ pyStr v ++ "' not found.")

/-- The `async for chunk in ...generate_content_stream(...)` loop of Step 5:
`finish_reason == "stop"` breaks, any chunk with truthy content is forwarded
as a Token.  Returns the forwarded events and whether the loop broke at a
stop marker. -/
def consumeChunks : List Chunk → List Event × Bool
  | [] => ([], false)
  | ch :: rest =>
    if ch.finish_reason = some "stop" then ([], true)
    else
      let r := consumeChunks rest
      (if ch.content ≠ "" then Event.token ch.content :: r.fst else r.fst, r.snd)

/-- Python `str.capitalize()`. -/
def pyCapitalize (s : String) : String :=
  match s.data with
  | [] => ""
  | c :: rest => String.mk (c.toUpper :: rest.map Char.toLower)

/-- The default planner decision `{"action": "ANSWER_DIRECTLY"}` assigned
before the parse attempt. -/
def defaultPlannerDecision : JValue :=
  JValue.jobj [("action", JValue.jstr "ANSWER_DIRECTLY")]

/-- The Step 3 malformed-planner warning thought. -/
def plannerWarning : Event :=
  Event.thought "Step 3 Warning: Planner response malformed. Defaulting to direct answer block."

/-- The inner `try` of Step 3: `json.loads` failure keeps the default
decision; success rebinds `planner_decision` to the parsed value *before*
the `planner_decision['action']` access in the success thought, so a parsed
non-object or an object without `"action"` raises inside the inner `try`,
yields the warning, and leaves the non-default value bound.  Returns the
bound decision and the emitted thought. -/
def parsePhase (parsed : Except String JValue) : JValue × List Event :=
  match parsed with
  | Except.error _ => (defaultPlannerDecision, [plannerWarning])
  | Except.ok v =>
    match v with
    | JValue.jobj fields =>
      match jlookup fields "action" with
      | some a =>
        (v, [Event.thought ("Step 3 Complete: Intent identified as " ++ pyStr a
              ++ ". Reason: " ++ pyStr ((jlookup fields "reason").getD JValue.jnull))])
      | none => (v, [plannerWarning])
    | _ => (v, [plannerWarning])

/-- Python `planner_decision.get("action") == "RUN_FEATURE"` on a dict-valued
decision. -/
def actionIsRunFeature (fields : List (String × JValue)) : Bool :=
  match jlookup fields "action" with
  | some (JValue.jstr s) => s == "RUN_FEATURE"
  | _ => false

/-- Step 4 of the workflow when the planner decision is an object: when
`action == "RUN_FEATURE"` run the feature, folding its result or failure
text into the synthesis context; otherwise do nothing.  Returns the emitted
events and `feature_context`. -/
def featurePhase (fields : List (String × JValue)) (gen : Except String String) :
    List Event × String :=
  if actionIsRunFeature fields then
    let fname := (jlookup fields "feature_name").getD JValue.jnull
    let fEvents := [Event.thought ("Step 4: Initializing specialized engine for: "
                      ++ pyStr fname ++ "..."),
                    Event.action ("Executing " ++ pyStr fname ++ " module")]
    match run_feature fname gen with
    | Except.ok r =>
      (fEvents ++ [Event.thought "Step 4 Complete: Feature execution successful."],
       "\n\nFEATURE EXECUTION RESULT (" ++ pyStr fname ++ "):\n" ++ r)
    | Except.error e =>
      (fEvents ++ [Event.thought "Step 4 Error: Feature execution failed. Explaining issue."],
       "\n\nFEATURE EXECUTION FAILED: " ++ e)
  else ([], "")

/-- Steps 1–2 of the workflow: the Step 1 thought, the history events (only
when a `session_id` is present: success loads and trims to the last 10
messages, failure yields a warning), and the Step 2 thought.  Returns the
events and `history_str`. -/
def historyPhase (session_id : Option String) (history : Except String (List Msg)) :
    List Event × String :=
  match session_id with
  | none => ([], "")
  | some _ =>
    match history with
    | Except.ok h =>
      let trimmed := if h.length > 10 then h.drop (h.length - 10) else h
      let hstr := String.intercalate "\n"
        (trimmed.map (fun m => pyCapitalize m.role ++ ": " ++ m.content))
      ([Event.thought ("Step 1 Complete: Loaded " ++ toString trimmed.length
          ++ " relevant messages for context.")], hstr)
    | Except.error _ =>
      ([Event.thought "Step 1 Warning: Memory retrieval failed. Starting with fresh context."], "")

/-- The three completion thoughts after a finished synthesis stream. -/
def completionEvents : List Event :=
  [Event.thought "Step 5 Complete: Response stream finished.",
   Event.thought "Step 7: Persisting interaction to PostgreSQL...",
   Event.thought "Workflow Complete."]

/-- The events of the non-local pipeline of `execute_workflow_stream`
(everything after the router check returned `None`).  The whole of Steps 3–7
runs in the outer `try`, whose handler turns any exception into a single
terminal Error event; the error event's content is modelled by the
exception message (the Python code appends a runtime traceback string,
which no claim observes). -/
def pipelineEvents (user_input active_mode : String) (session_id : Option String)
    (o : WorkflowOracle) : List Event :=
  let step1 := Event.thought "Step 1: Retrieving conversation history from PostgreSQL..."
  let hist := historyPhase session_id o.history
  let history_str := hist.snd
  let step2 := Event.thought "Step 2: Appending latest input to active memory buffer..."
  let full_context := if history_str ≠ "" then history_str ++ "\nUser: " ++ user_input
                      else "User: " ++ user_input
  let pre := step1 :: hist.fst ++ [step2]
  let step3 := Event.thought ("Step 3: Consulting AI Planner for " ++ active_mode ++ " strategy...")
  match o.planner with
  | Except.error e => pre ++ [step3, Event.error e]
  | Except.ok _planner_response =>
    let pp := parsePhase o.planner_parsed
    match pp.fst with
    | JValue.jobj fields =>
      let feat := featurePhase fields o.feature_gen
      let _response_input := full_context ++ feat.snd
      let step5 := Event.thought "Step 5: Synthesizing final response output..."
      let cc := consumeChunks o.chunks
      let tailEvents :=
        match cc.snd, o.stream_fault with
        | false, some f => [Event.error f]
        | _, _ => completionEvents
      pre ++ [step3] ++ pp.snd ++ feat.fst ++ [step5] ++ cc.fst ++ tailEvents
    | _ =>
      pre ++ [step3] ++ pp.snd
        ++ [Event.error "AttributeError: planner decision object has no attribute 'get'"]

/-- `AgentWorkflow.execute_workflow_stream`: ask the router first (mode
defaults to "standard"); on a local hit emit one Thought and one Token with
the whole payload `content` (a payload without a `content` key would raise a
raw `KeyError` after the Thought — this `yield` is outside the `try`);
otherwise run the staged pipeline, whose exceptions all convert to a
terminal Error event. -/
def execute_workflow_stream (c : ResponseCache) (now : Nat) (user_input : String)
    (active_mode : String) (session_id : Option String) (o : WorkflowOracle) :
    StreamResult :=
  let routed := route_request c user_input "standard" now
  match routed.fst with
  | some local_response =>
    let localThought := Event.thought ("Query matched local knowledge base within "
      ++ active_mode ++ " context. Executing rapid response protocol.")
    match dictGet local_response "content" with
    | some content => ⟨[localThought, Event.token content], none⟩
    | none => ⟨[localThought], some "KeyError: 'content'"⟩
  | none => ⟨pipelineEvents user_input active_mode session_id o, none⟩

deriving instance DecidableEq for Except

/-- The diagnostic counters of `BaseAgent` mutated by `run_with_retry`
(`status`, `error_count`, `success_count`, `last_activity`). -/
structure AgentState where
  status : String
  error_count : Nat
  success_count : Nat
  last_activity : Option Nat
deriving DecidableEq

/-- The three ways one attempt of `BaseAgent.execute` can fail, as
distinguished by the `except` clauses of `run_with_retry`:
`asyncio.TimeoutError`, an `AgentError` subclass (a recognized domain
failure), or any other exception. -/
inductive ExcKind where
  | timeoutExc
  | agentExc (msg : String)
  | otherExc (msg : String)
deriving DecidableEq

/-- The classified failure that `run_with_retry` records in
`last_exception` and finally raises. -/
inductive RaisedError where
  | timeout (msg : String)
  | domain (msg : String)
  | unexpected (msg : String)
deriving DecidableEq

/-- The classification performed by the `except` clauses: a timeout becomes
`AgentTimeoutError(f"Agent {id} timed out after {timeout}s")`, an
`AgentError` is kept as is, anything else is wrapped as
`AgentError(f"Unexpected error: {e}")`. -/
def classifyExc (agent_id : String) (timeout_seconds : Nat) : ExcKind → RaisedError
  | ExcKind.timeoutExc =>
    RaisedError.timeout ("Agent " ++ agent_id ++ " timed out after "
      ++ toString timeout_seconds ++ "s")
  | ExcKind.agentExc m => RaisedError.domain m
  | ExcKind.otherExc m => RaisedError.unexpected ("Unexpected error: " ++ m)

/-- The `for attempt in range(settings.max_retries)` loop of
`run_with_retry`: `fuel` counts attempts left, `idx` is the 1-based attempt
number passed to `execute` as `_retry_attempt`, `last` is the
`last_exception` binding.  When the loop ends without a success the last
classified failure is raised (`Except.error`); a `none` payload there models
Python's `raise last_exception` with `last_exception = None` (only possible
with `max_retries = 0`). -/
def retryLoop {T : Type} (agent_id : String) (timeout_seconds : Nat)
    (work : Nat → Except ExcKind T) (t : Nat) :
    Nat → Nat → Option RaisedError → AgentState →
    Except (Option RaisedError) T × AgentState
  | 0, _, last, s =>
    (Except.error last, { s with status := "failed", error_count := s.error_count + 1 })
  | fuel + 1, idx, _, s =>
    let s1 := { s with status := "running", last_activity := some t }
    match work idx with
    | Except.ok v =>
      (Except.ok v, { s1 with status := "completed", success_count := s1.success_count + 1 })
    | Except.error e =>
      retryLoop agent_id timeout_seconds work t fuel (idx + 1)
        (some (classifyExc agent_id timeout_seconds e)) s1

/-- `BaseAgent.run_with_retry`: up to `max_retries` timed attempts of
`execute`; a success returns immediately after bumping `success_count`;
after exhaustion the *last* observed failure is raised and `error_count` is
bumped once.  `work n` is the outcome of the attempt carrying
`_retry_attempt = n`; the exponential backoff sleeps between attempts have
no further observable effect and `t` stands for the `time.time()` reading. -/
def run_with_retry {T : Type} (max_retries : Nat) (agent_id : String)
    (timeout_seconds : Nat) (work : Nat → Except ExcKind T) (s : AgentState)
    (t : Nat) : Except (Option RaisedError) T × AgentState :=
  retryLoop agent_id timeout_seconds work t max_retries 1 none s

/-- A fresh `BaseAgent.__init__` state. -/
def initialAgentState : AgentState :=
  ⟨"initialized", 0, 0, none⟩

example :
    (run_with_retry 3 "a" 30
      (fun i => if i = 1 then Except.error (ExcKind.otherExc "x")
                else if i = 2 then Except.error ExcKind.timeoutExc
                else Except.ok 7)
      initialAgentState 5).fst = Except.ok 7 := by decide

example :
    (run_with_retry 2 "a" 30
      (fun i => if i = 1 then Except.error (ExcKind.otherExc "x")
                else if i = 2 then Except.error ExcKind.timeoutExc
                else Except.ok 7)
      initialAgentState 5).fst
    = Except.error (some (RaisedError.timeout "Agent a timed out after 30s")) := by decide

/-- Overwriting or appending one entry grows the store by at most one. -/
theorem insertEntry_length_le (l : List CacheEntry) (e : CacheEntry) :
    (insertEntry l e).length ≤ l.length + 1 := by
  induction l with
  | nil => simp [insertEntry]
  | cons x rest ih =>
    by_cases h : x.key = e.key
    · simp [insertEntry, h]
    · simp only [insertEntry, if_neg h, List.length_cons]
      omega

/-- A freshly inserted entry is found under its key. -/
theorem findEntry_insertEntry_self (l : List CacheEntry) (e : CacheEntry) :
    findEntry (insertEntry l e) e.key = some e := by
  induction l with
  | nil => simp [insertEntry, findEntry]
  | cons x rest ih =>
    by_cases h : x.key = e.key <;> simp [insertEntry, findEntry, h, ih]

/-- An entry returned by `findEntry` is an element of the store. -/
theorem findEntry_mem {l : List CacheEntry} {k : String} {e : CacheEntry}
    (h : findEntry l k = some e) : e ∈ l := by
  induction l with
  | nil => simp [findEntry] at h
  | cons x rest ih =>
    by_cases hx : x.key = k
    · simp [findEntry, hx] at h
      simp [h]
    · simp [findEntry, hx] at h
      exact List.mem_cons_of_mem _ (ih h)

/-- A key absent from the key list is not found. -/
theorem findEntry_eq_none_of_not_mem {l : List CacheEntry} {k : String}
    (h : k ∉ l.map CacheEntry.key) : findEntry l k = none := by
  induction l with
  | nil => simp [findEntry]
  | cons x rest ih =>
    simp only [List.map_cons, List.mem_cons, not_or] at h
    have hx : x.key ≠ k := fun hh => h.1 hh.symm
    simp only [findEntry, if_neg hx]
    exact ih h.2

/-- After deleting a key from a store whose keys are pairwise distinct, the
key is no longer found. -/
theorem findEntry_eraseEntry_self {l : List CacheEntry} {k : String}
    (hnd : (l.map CacheEntry.key).Nodup) :
    findEntry (eraseEntry l k) k = none := by
  induction l with
  | nil => simp [eraseEntry, findEntry]
  | cons x rest ih =>
    rw [List.map_cons] at hnd
    have hx : x.key ∉ rest.map CacheEntry.key := hnd.not_mem
    have hrest : (rest.map CacheEntry.key).Nodup := hnd.of_cons
    by_cases hk : x.key = k
    · subst hk
      simp only [eraseEntry, if_pos rfl]
      exact findEntry_eq_none_of_not_mem hx
    · simp only [eraseEntry, if_neg hk, findEntry, if_neg hk]
      exact ih hrest

/-- Setting one key leaves lookups of other keys unchanged. -/
theorem dictGet_dictSet_ne (p : Payload) (k v k' : String) (h : k' ≠ k) :
    dictGet (dictSet p k v) k' = dictGet p k' := by
  induction p with
  | nil => simp [dictSet, dictGet, Ne.symm h]
  | cons x rest ih =>
    obtain ⟨xk, xv⟩ := x
    by_cases hx : xk = k
    · subst hx
      simp [dictSet, dictGet, Ne.symm h]
    · simp [dictSet, dictGet, hx, ih]

/-- **C5, counterexample.**  With `max_size = 1` the eviction sweep removes
`int(1 * 0.1) = 0` entries, so inserting a second key pushes the entry count
to 2 > `max_size`: the bound of the claim fails for `max_size < 10`. -/
theorem C5_counterexample :
    (ResponseCache.set ⟨[⟨"k", [("content", "x")], 0⟩], 3600, 1⟩
        "b" [("content", "y")] "standard" 0).cache.length = 2 ∧
    (ResponseCache.mk [⟨"k", [("content", "x")], 0⟩] 3600 1).max_size = 1 := by
  constructor
  · rfl
  · rfl

/-- **C5 (amended).**  When the entry count has reached `max_size`, `set`
first evicts the oldest `max_size / 10` entries by insertion order (a bulk
sweep) and then inserts; provided `max_size ≥ 10` — so that the sweep is
non-empty — the entry count never exceeds `max_size`. -/
theorem C5_capacity_eviction_amended (c : ResponseCache) (ui : String) (d : Payload)
    (mode : String) (now : Nat)
    (h10 : 10 ≤ c.max_size) (hlen : c.cache.length ≤ c.max_size) :
    (ResponseCache.set c ui d mode now).cache.length ≤ c.max_size ∧
    (c.max_size ≤ c.cache.length →
      (ResponseCache.set c ui d mode now).cache
        = insertEntry (c.cache.drop (c.max_size / 10)) ⟨generate_key ui mode, d, now⟩ ∧
      1 ≤ c.max_size / 10) := by
  have hdiv1 : 1 ≤ c.max_size / 10 := (Nat.one_le_div_iff (by norm_num)).mpr h10
  have hdivle : c.max_size / 10 ≤ c.max_size := Nat.div_le_self _ _
  constructor
  · by_cases hfull : c.cache.length ≥ c.max_size
    · have hEq : c.cache.length = c.max_size := le_antisymm hlen hfull
      simp only [ResponseCache.set, if_pos hfull]
      have h1 := insertEntry_length_le (c.cache.drop (c.max_size / 10))
        ⟨generate_key ui mode, d, now⟩
      have h2 : (c.cache.drop (c.max_size / 10)).length
          = c.cache.length - c.max_size / 10 := List.length_drop _ _
      omega
    · simp only [ResponseCache.set, if_neg hfull]
      have h1 := insertEntry_length_le c.cache ⟨generate_key ui mode, d, now⟩
      omega
  · intro hfull
    refine ⟨?_, hdiv1⟩
    simp only [ResponseCache.set, if_pos (show c.cache.length ≥ c.max_size from hfull)]

/-- Witness for `C5_capacity_eviction_amended` at `max_size = 10` and a full
store of ten entries. -/
theorem C5_capacity_eviction_amended_witness :
    (ResponseCache.set
        ⟨(List.range 10).map (fun i => ⟨toString i, [("content", "x")], 0⟩), 3600, 10⟩
        "b" [("content", "y")] "standard" 0).cache.length ≤ 10 := by
  have h := C5_capacity_eviction_amended
    ⟨(List.range 10).map (fun i => ⟨toString i, [("content", "x")], 0⟩), 3600, 10⟩
    "b" [("content", "y")] "standard" 0 (by norm_num) (by decide)
  exact h.1

/-- **C6.** `ResponseCache.get` returns `None` on an absent key; on a present
entry whose age `now - created_at` exceeds `ttl_seconds` it deletes the entry
eagerly and returns `None`; otherwise it returns the stored payload.  In
particular an entry set at `t0` with `ttl_seconds = 1` is a miss when read at
`t0 + 2`. -/
theorem C6_cache_get_ttl :
    (∀ (c : ResponseCache) (ui mode : String) (now : Nat),
      findEntry c.cache (generate_key ui mode) = none →
      ResponseCache.get c ui mode now = (none, c)) ∧
    (∀ (c : ResponseCache) (ui mode : String) (now : Nat) (e : CacheEntry),
      findEntry c.cache (generate_key ui mode) = some e →
      now - e.timestamp > c.ttl_seconds →
      ResponseCache.get c ui mode now
        = (none, { c with cache := eraseEntry c.cache (generate_key ui mode) })) ∧
    (∀ (c : ResponseCache) (ui mode : String) (now : Nat) (e : CacheEntry),
      findEntry c.cache (generate_key ui mode) = some e →
      ¬ now - e.timestamp > c.ttl_seconds →
      ResponseCache.get c ui mode now = (some e.data, c)) ∧
    (∀ (c : ResponseCache) (ui : String) (d : Payload) (mode : String) (t0 : Nat),
      c.ttl_seconds = 1 →
      (ResponseCache.get (ResponseCache.set c ui d mode t0) ui mode (t0 + 2)).fst = none) := by
  refine ⟨?_, ?_, ?_, ?_⟩
  · intro c ui mode now h
    simp [ResponseCache.get, h]
  · intro c ui mode now e h hexp
    simp [ResponseCache.get, h, hexp]
  · intro c ui mode now e h hexp
    simp [ResponseCache.get, h, hexp]
  · intro c ui d mode t0 httl
    have hfind : findEntry (ResponseCache.set c ui d mode t0).cache (generate_key ui mode)
        = some ⟨generate_key ui mode, d, t0⟩ := by
      simp only [ResponseCache.set]
      exact findEntry_insertEntry_self _ _
    have httl' : (ResponseCache.set c ui d mode t0).ttl_seconds = 1 := by
      simp [ResponseCache.set, httl]
    simp [ResponseCache.get, hfind, httl']

/-- Witness for `C6_cache_get_ttl`: a concrete entry set at time 0 with
`ttl_seconds = 1` is a miss at time 2. -/
theorem C6_cache_get_ttl_witness :
    (ResponseCache.get (ResponseCache.set ⟨[], 1, 1000⟩ "q" [("content", "x")] "standard" 0)
        "q" "standard" 2).fst = none :=
  C6_cache_get_ttl.2.2.2 ⟨[], 1, 1000⟩ "q" [("content", "x")] "standard" 0 rfl

/-- **C7.** `route_request` is a fixed first-match-wins cascade: a truthy,
unexpired cache hit wins outright and is tagged `source="cache"`; on a cache
miss (or falsy hit) the fixed patterns are tried in order — exact status
keywords, then identity substrings, then exact greetings — and otherwise the
result is `None`. -/
theorem C7_router_priority :
    (∀ (c : ResponseCache) (ui mode : String) (now : Nat) (e : CacheEntry),
      findEntry c.cache (generate_key ui mode) = some e →
      ¬ now - e.timestamp > c.ttl_seconds →
      e.data ≠ [] →
      (route_request c ui mode now).fst = some (dictSet e.data "source" "cache")) ∧
    (∀ (c : ResponseCache) (ui mode : String) (now : Nat),
      (ResponseCache.get c ui mode now).fst = none ∨
        (ResponseCache.get c ui mode now).fst = some [] →
      (route_request c ui mode now).fst = localPatternDecision (pyStrip (pyLower ui)) now) ∧
    (∀ (s : String) (now : Nat), s ∈ statusKeywords →
      localPatternDecision s now
        = some (dictSet (get_system_status_response now) "source" "local")) ∧
    (∀ (s : String) (now : Nat), s ∉ statusKeywords → identityMatch s = true →
      localPatternDecision s now = some (dictSet get_identity_response "source" "local")) ∧
    (∀ (s : String) (now : Nat), s ∉ statusKeywords → identityMatch s = false →
      s ∈ greetingKeywords → localPatternDecision s now = some greetingPayload) ∧
    (∀ (s : String) (now : Nat), s ∉ statusKeywords → identityMatch s = false →
      s ∉ greetingKeywords → localPatternDecision s now = none) := by
  refine ⟨?_, ?_, ?_, ?_, ?_, ?_⟩
  · intro c ui mode now e hfind hexp hne
    have hget : ResponseCache.get c ui mode now = (some e.data, c) := by
      simp [ResponseCache.get, hfind, hexp]
    have hne' : e.data.isEmpty = false := by
      cases hd : e.data
      · exact absurd hd hne
      · rfl
    simp [route_request, hget, hne']
  · intro c ui mode now h
    rcases h with h | h
    · simp [route_request, h]
    · simp [route_request, h]
  · intro s now h
    simp [localPatternDecision, h]
  · intro s now h1 h2
    simp [localPatternDecision, h1, h2]
  · intro s now h1 h2 h3
    simp [localPatternDecision, h1, h2, h3]
  · intro s now h1 h2 h3
    simp [localPatternDecision, h1, h2, h3]

/-- Witness for `C7_router_priority`: a pre-seeded cache entry for input
`"status"` overrides the fixed status pattern and comes back tagged
`source="cache"`. -/
theorem C7_router_priority_witness :
    (route_request ⟨[⟨generate_key "status" "standard", [("content", "cached!")], 0⟩], 3600, 1000⟩
        "status" "standard" 5).fst
      = some (dictSet [("content", "cached!")] "source" "cache") :=
  C7_router_priority.1
    ⟨[⟨generate_key "status" "standard", [("content", "cached!")], 0⟩], 3600, 1000⟩
    "status" "standard" 5 ⟨generate_key "status" "standard", [("content", "cached!")], 0⟩
    (by simp [findEntry]) (by decide) (by decide)

/-- **C10.** A falsy (empty-dict) payload stored in the cache is treated by
`route_request` as a miss (`if cached:` fails), so the request falls through
to the fixed local patterns and may end in no match. -/
theorem C10_falsy_cache_payload :
    (∀ (c : ResponseCache) (ui mode : String) (now : Nat) (e : CacheEntry),
      findEntry c.cache (generate_key ui mode) = some e →
      ¬ now - e.timestamp > c.ttl_seconds →
      e.data = [] →
      (route_request c ui mode now).fst = localPatternDecision (pyStrip (pyLower ui)) now) ∧
    (route_request ⟨[⟨generate_key "zzz" "standard", [], 0⟩], 3600, 1000⟩
        "zzz" "standard" 0).fst = none := by
  constructor
  · intro c ui mode now e hfind hexp hdata
    have hget : ResponseCache.get c ui mode now = (some e.data, c) := by
      simp [ResponseCache.get, hfind, hexp]
    simp [route_request, hget, hdata]
  · decide

/-- Witness for `C10_falsy_cache_payload`: an empty payload cached under the
key for `"hello"` is skipped and the fixed greeting pattern answers. -/
theorem C10_falsy_cache_payload_witness :
    (route_request ⟨[⟨generate_key "hello" "standard", [], 0⟩], 3600, 1000⟩
        "hello" "standard" 0).fst
      = localPatternDecision (pyStrip (pyLower "hello")) 0 :=
  C10_falsy_cache_payload.1
    ⟨[⟨generate_key "hello" "standard", [], 0⟩], 3600, 1000⟩ "hello" "standard" 0
    ⟨generate_key "hello" "standard", [], 0⟩
    (by simp [findEntry]) (by decide) rfl

/-- **C9, counterexample.**  `route_request` is not a function of input and
cache state alone: the status report embeds the wall clock
(`datetime.now().strftime("%H:%M:%S")`), so two calls for `"status"` on an
identical (empty) cache at clock readings 0 and 1 return different payloads. -/
theorem C9_counterexample :
    (route_request ⟨[], 3600, 1000⟩ "status" "standard" 0).fst
      ≠ (route_request ⟨[], 3600, 1000⟩ "status" "standard" 1).fst := by
  decide

/-- **C9 (amended).**  At a fixed clock reading, calling `route_request`
twice in a row (threading the cache it returns, which may have lost an
expired entry) yields the same decision and the same final cache state,
provided the cache keys are pairwise distinct (always true of a Python
dict). -/
theorem C9_route_idempotent_amended (c : ResponseCache) (ui mode : String) (t : Nat)
    (hnd : (c.cache.map CacheEntry.key).Nodup) :
    (route_request (route_request c ui mode t).snd ui mode t).fst
      = (route_request c ui mode t).fst ∧
    (route_request (route_request c ui mode t).snd ui mode t).snd
      = (route_request c ui mode t).snd := by
  cases hfind : findEntry c.cache (generate_key ui mode) with
  | none =>
    have hsnd : (route_request c ui mode t).snd = c := by
      simp [route_request, ResponseCache.get, hfind]
    rw [hsnd]
    exact ⟨rfl, hsnd⟩
  | some e =>
    by_cases hexp : t - e.timestamp > c.ttl_seconds
    · have h1 : route_request c ui mode t
          = (localPatternDecision (pyStrip (pyLower ui)) t,
             { c with cache := eraseEntry c.cache (generate_key ui mode) }) := by
        simp [route_request, ResponseCache.get, hfind, hexp]
      have hfind2 : findEntry (eraseEntry c.cache (generate_key ui mode))
          (generate_key ui mode) = none := findEntry_eraseEntry_self hnd
      have h2 : route_request { c with cache := eraseEntry c.cache (generate_key ui mode) }
            ui mode t
          = (localPatternDecision (pyStrip (pyLower ui)) t,
             { c with cache := eraseEntry c.cache (generate_key ui mode) }) := by
        simp [route_request, ResponseCache.get, hfind2]
      rw [h1, h2]
      exact ⟨rfl, rfl⟩
    · have hgc : ResponseCache.get c ui mode t = (some e.data, c) := by
        simp [ResponseCache.get, hfind, hexp]
      have hsnd : (route_request c ui mode t).snd = c := by
        by_cases hd : e.data.isEmpty = true
        · simp [route_request, hgc, hd]
        · simp [route_request, hgc, hd]
      rw [hsnd]
      exact ⟨rfl, hsnd⟩

/-- Witness for `C9_route_idempotent_amended` on an empty cache and input
`"hello"`. -/
theorem C9_route_idempotent_amended_witness :
    (route_request (route_request ⟨[], 3600, 1000⟩ "hello" "standard" 0).snd
        "hello" "standard" 0).fst
      = (route_request ⟨[], 3600, 1000⟩ "hello" "standard" 0).fst :=
  (C9_route_idempotent_amended ⟨[], 3600, 1000⟩ "hello" "standard" 0 (by simp)).1

/-- When every attempt fails, the loop raises the classification of the
*last* attempt's failure (`last_exception` is overwritten on each failure). -/
theorem retryLoop_all_fail (f : Nat → ExcKind) (aid : String) (ts t : Nat) :
    ∀ (k idx : Nat) (last : Option RaisedError) (s : AgentState), 1 ≤ k →
    (retryLoop aid ts (fun i => (Except.error (f i) : Except ExcKind String)) t
        k idx last s).fst
      = Except.error (some (classifyExc aid ts (f (idx + k - 1)))) := by
  intro k
  induction k with
  | zero => intro idx last s h; omega
  | succ k ih =>
    intro idx last s _
    by_cases hk : 1 ≤ k
    · show (retryLoop aid ts _ t k (idx + 1) _ _).fst = _
      rw [ih (idx + 1) _ _ hk, show idx + 1 + k - 1 = idx + (k + 1) - 1 from by omega]
    · have hk0 : k = 0 := by omega
      subst hk0
      show (Except.error (some (classifyExc aid ts (f idx))) : Except (Option RaisedError) String)
          = Except.error (some (classifyExc aid ts (f (idx + 1 - 1))))
      rw [show idx + 1 - 1 = idx from by omega]

/-- **C3.** A work function failing on attempts 1 and 2 and succeeding on
attempt 3 returns the success under `max_retries = 3` with `success_count`
bumped by exactly one, and under `max_retries = 2` raises the classified
failure of the *second* attempt; in general, exhausting `n ≥ 1` attempts
raises the last observed failure tagged by its classification
(Timeout / Domain / Unexpected via `classifyExc`). -/
theorem C3_retry_envelope :
    (∀ (e1 e2 : ExcKind) (v : String) (aid : String) (ts t : Nat) (s : AgentState),
      (run_with_retry 3 aid ts
          (fun i => if i = 1 then Except.error e1
                    else if i = 2 then Except.error e2 else Except.ok v) s t).fst
        = Except.ok v ∧
      (run_with_retry 3 aid ts
          (fun i => if i = 1 then Except.error e1
                    else if i = 2 then Except.error e2 else Except.ok v) s t).snd.success_count
        = s.success_count + 1 ∧
      (run_with_retry 2 aid ts
          (fun i => if i = 1 then Except.error e1
                    else if i = 2 then Except.error e2 else Except.ok v) s t).fst
        = Except.error (some (classifyExc aid ts e2))) ∧
    (∀ (n : Nat) (f : Nat → ExcKind) (aid : String) (ts t : Nat) (s : AgentState),
      1 ≤ n →
      (run_with_retry n aid ts
          (fun i => (Except.error (f i) : Except ExcKind String)) s t).fst
        = Except.error (some (classifyExc aid ts (f n)))) := by
  constructor
  · intro e1 e2 v aid ts t s
    exact ⟨rfl, rfl, rfl⟩
  · intro n f aid ts t s hn
    have h := retryLoop_all_fail f aid ts t n 1 none s hn
    rw [run_with_retry, h, show 1 + n - 1 = n from by omega]

/-- Witness for `C3_retry_envelope`: two timing-out attempts under
`max_retries = 2` raise the classified timeout of the final attempt. -/
theorem C3_retry_envelope_witness :
    (run_with_retry 2 "agent" 30
        (fun _ => (Except.error ExcKind.timeoutExc : Except ExcKind String))
        initialAgentState 0).fst
      = Except.error (some (classifyExc "agent" 30 ExcKind.timeoutExc)) :=
  C3_retry_envelope.2 2 (fun _ => ExcKind.timeoutExc) "agent" 30 0 initialAgentState
    (by norm_num)

/-- On a router miss the workflow runs the full pipeline and never raises. -/
theorem execute_on_miss (c : ResponseCache) (now : Nat) (ui mode : String)
    (sid : Option String) (o : WorkflowOracle)
    (h : (route_request c ui "standard" now).fst = none) :
    execute_workflow_stream c now ui mode sid o
      = ⟨pipelineEvents ui mode sid o, none⟩ := by
  simp [execute_workflow_stream, h]

/-- On a router hit whose payload has a `content` key the workflow emits the
fast-path Thought and one Token and stops. -/
theorem execute_on_hit (c : ResponseCache) (now : Nat) (ui mode : String)
    (sid : Option String) (o : WorkflowOracle) (lr : Payload) (v : String)
    (h : (route_request c ui "standard" now).fst = some lr)
    (hv : dictGet lr "content" = some v) :
    execute_workflow_stream c now ui mode sid o
      = ⟨[Event.thought ("Query matched local knowledge base within " ++ mode
            ++ " context. Executing rapid response protocol."),
          Event.token v], none⟩ := by
  simp [execute_workflow_stream, h, hv]

/-- A placeholder oracle for runs that terminate before consulting any
external collaborator. -/
def sampleOracle : WorkflowOracle :=
  ⟨Except.ok [], Except.ok [("content", "x")], Except.error "invalid json",
   Except.ok "S", [⟨"hi", none⟩], none⟩

/-- **C1, counterexample.**  For input `"hello"` on an empty cache,
`execute_workflow_stream` yields exactly two events — the fast-path Thought
and a *single* Token carrying the whole canned greeting — with no trailing
diagnostic event after the token (the claimed chunked sequence with a
trailing source event would have at least three events ending in a
non-Token). -/
theorem C1_counterexample :
    (execute_workflow_stream ⟨[], 3600, 1000⟩ 0 "hello" "Standard Operations"
        none sampleOracle).events
      = [Event.thought "Query matched local knowledge base within Standard Operations context. Executing rapid response protocol.",
         Event.token "Hello! I am Sentinel AI. How can I assist you with your operations today?"] := by
  decide

/-- **C1 (amended).**  Whenever the router answers locally with a payload
carrying a `content` entry — in particular for `"hello"` on a cache with no
colliding entry — `execute_workflow_stream` emits exactly one Thought and
then one Token with the entire payload content, terminates there, and never
invokes the generation capability (the result is independent of every
oracle); the 100-character chunking and trailing source event live in the
HTTP handler, not in this function. -/
theorem C1_local_hit_amended :
    (∀ (c : ResponseCache) (now : Nat) (ui mode : String) (sid : Option String)
        (o : WorkflowOracle) (lr : Payload) (v : String),
      (route_request c ui "standard" now).fst = some lr →
      dictGet lr "content" = some v →
      execute_workflow_stream c now ui mode sid o
        = ⟨[Event.thought ("Query matched local knowledge base within " ++ mode
              ++ " context. Executing rapid response protocol."),
            Event.token v], none⟩) ∧
    (∀ (now ttl ms : Nat) (mode : String) (sid : Option String) (o : WorkflowOracle),
      execute_workflow_stream ⟨[], ttl, ms⟩ now "hello" mode sid o
        = ⟨[Event.thought ("Query matched local knowledge base within " ++ mode
              ++ " context. Executing rapid response protocol."),
            Event.token "Hello! I am Sentinel AI. How can I assist you with your operations today?"],
           none⟩) := by
  constructor
  · intro c now ui mode sid o lr v h hv
    exact execute_on_hit c now ui mode sid o lr v h hv
  · intro now ttl ms mode sid o
    exact execute_on_hit ⟨[], ttl, ms⟩ now "hello" mode sid o greetingPayload
      "Hello! I am Sentinel AI. How can I assist you with your operations today?" rfl rfl

/-- Witness for `C1_local_hit_amended` at the greeting `"hi"`. -/
theorem C1_local_hit_amended_witness :
    execute_workflow_stream ⟨[], 3600, 1000⟩ 0 "hi" "Deep Coding" none sampleOracle
      = ⟨[Event.thought "Query matched local knowledge base within Deep Coding context. Executing rapid response protocol.",
          Event.token "Hello! I am Sentinel AI. How can I assist you with your operations today?"],
         none⟩ :=
  C1_local_hit_amended.1 ⟨[], 3600, 1000⟩ 0 "hi" "Deep Coding" none sampleOracle
    greetingPayload "Hello! I am Sentinel AI. How can I assist you with your operations today?"
    (by decide) (by decide)

/-- The Step 5 loop forwards only Token events. -/
theorem consumeChunks_noError (chs : List Chunk) :
    ∀ e ∈ (consumeChunks chs).fst, e.isErrorEvent = false := by
  induction chs with
  | nil => simp [consumeChunks]
  | cons c rest ih =>
    intro e he
    by_cases hc : c.finish_reason = some "stop"
    · simp [consumeChunks, hc] at he
    · simp only [consumeChunks, if_neg hc] at he
      by_cases hne : c.content ≠ ""
      · rw [if_pos hne] at he
        rcases List.mem_cons.mp he with rfl | hm
        · rfl
        · exact ih e hm
      · rw [if_neg hne] at he
        exact ih e he

/-- Without a `"stop"` marker the loop never breaks and forwards every chunk
with truthy content as a Token. -/
theorem consumeChunks_no_stop (chs : List Chunk)
    (h : ∀ ch ∈ chs, ch.finish_reason ≠ some "stop") :
    (consumeChunks chs).snd = false ∧
    ∀ ch ∈ chs, ch.content ≠ "" → Event.token ch.content ∈ (consumeChunks chs).fst := by
  induction chs with
  | nil => simp [consumeChunks]
  | cons c rest ih =>
    have hc : ¬ c.finish_reason = some "stop" := h c (List.mem_cons_self c rest)
    have hrest := ih (fun ch hm => h ch (List.mem_cons_of_mem c hm))
    constructor
    · simp only [consumeChunks, if_neg hc]
      exact hrest.1
    · intro ch hm hne
      simp only [consumeChunks, if_neg hc]
      rcases List.mem_cons.mp hm with rfl | hm'
      · rw [if_pos hne]
        exact List.mem_cons_self _ _
      · by_cases hcne : c.content ≠ ""
        · rw [if_pos hcne]
          exact List.mem_cons_of_mem _ (hrest.2 ch hm' hne)
        · rw [if_neg hcne]
          exact hrest.2 ch hm' hne

/-- The pipeline events for a no-session run whose planner output fails to
parse and whose stream has no `"stop"` marker: warning Thought, synthesis
Tokens, then the completion Thoughts. -/
theorem pipeline_no_stop_events (ui mode : String) (p : Payload) (g : Except String String)
    (chunks : List Chunk) (hsnd : (consumeChunks chunks).snd = false)
    (msg : String) :
    pipelineEvents ui mode none
        ⟨Except.ok [], Except.ok p, Except.error msg, g, chunks, none⟩
      = [Event.thought "Step 1: Retrieving conversation history from PostgreSQL...",
         Event.thought "Step 2: Appending latest input to active memory buffer...",
         Event.thought ("Step 3: Consulting AI Planner for " ++ mode ++ " strategy..."),
         plannerWarning,
         Event.thought "Step 5: Synthesizing final response output..."]
        ++ (consumeChunks chunks).fst ++ completionEvents := by
  simp [pipelineEvents, historyPhase, parsePhase, defaultPlannerDecision, featurePhase,
    actionIsRunFeature, jlookup, hsnd]

/-- The run used to study the `"error"` terminal marker: a non-local input,
no session, a planner whose output fails to parse, and an arbitrary
synthesis stream. -/
def errMarkerRun (chunks : List Chunk) : StreamResult :=
  execute_workflow_stream ⟨[], 3600, 1000⟩ 0 "run diagnostics" "Standard Operations" none
    ⟨Except.ok [], Except.ok [("content", "x")], Except.error "invalid json",
     Except.ok "S", chunks, none⟩

/-- **C8, counterexample.**  When the generation stream yields the chunk
`{"content": "\n\n[System Error: boom]", "finish_reason": "error"}`, the
workflow forwards the error text as an ordinary Token, emits no Error event
at all, and completes normally with `"Workflow Complete."`. -/
theorem C8_counterexample :
    Event.token "\n\n[System Error: boom]"
        ∈ (errMarkerRun [⟨"\n\n[System Error: boom]", some "error"⟩]).events ∧
    (∀ e ∈ (errMarkerRun [⟨"\n\n[System Error: boom]", some "error"⟩]).events,
      e.isErrorEvent = false) ∧
    (errMarkerRun [⟨"\n\n[System Error: boom]", some "error"⟩]).events.getLast?
      = some (Event.thought "Workflow Complete.") := by
  refine ⟨by decide, by decide, by decide⟩

/-- **C8 (amended).**  A chunk with `finish_reason = "error"` is *not*
translated into an Error event: only `"stop"` is treated as a terminal
marker, so the error chunk's non-empty content is forwarded as an ordinary
Token event and the workflow completes normally with the completion
Thoughts. -/
theorem C8_error_marker_amended (chunks : List Chunk) (ec : Chunk)
    (hmem : ec ∈ chunks) (hne : ec.content ≠ "")
    (hnostop : ∀ ch ∈ chunks, ch.finish_reason ≠ some "stop") :
    Event.token ec.content ∈ (errMarkerRun chunks).events ∧
    (∀ e ∈ (errMarkerRun chunks).events, e.isErrorEvent = false) ∧
    (errMarkerRun chunks).events.getLast? = some (Event.thought "Workflow Complete.") := by
  have hcc := consumeChunks_no_stop chunks hnostop
  have hroute : (route_request ⟨[], 3600, 1000⟩ "run diagnostics" "standard" 0).fst = none := by
    decide
  have hev : (errMarkerRun chunks).events
      = [Event.thought "Step 1: Retrieving conversation history from PostgreSQL...",
         Event.thought "Step 2: Appending latest input to active memory buffer...",
         Event.thought ("Step 3: Consulting AI Planner for Standard Operations strategy..."),
         plannerWarning,
         Event.thought "Step 5: Synthesizing final response output..."]
        ++ (consumeChunks chunks).fst ++ completionEvents := by
    rw [errMarkerRun, execute_on_miss _ _ _ _ _ _ hroute]
    exact pipeline_no_stop_events "run diagnostics" "Standard Operations" [("content", "x")]
      (Except.ok "S") chunks hcc.1 "invalid json"
  refine ⟨?_, ?_, ?_⟩
  · rw [hev]
    have := hcc.2 ec hmem hne
    simp only [List.mem_append]
    left
    right
    exact this
  · intro e he
    rw [hev] at he
    simp only [List.mem_append] at he
    rcases he with (h5 | hc) | hcomp
    · fin_cases h5 <;> rfl
    · exact consumeChunks_noError chunks e hc
    · fin_cases hcomp <;> rfl
  · rw [hev]
    rw [List.append_assoc]
    rw [List.getLast?_append_of_ne_nil _ (by simp [completionEvents])]
    rw [List.getLast?_append_of_ne_nil _ (by simp [completionEvents])]
    rfl

/-- Witness for `C8_error_marker_amended` at a one-chunk error stream. -/
theorem C8_error_marker_amended_witness :
    Event.token "\n\n[System Error: quota]"
        ∈ (errMarkerRun [⟨"\n\n[System Error: quota]", some "error"⟩]).events :=
  (C8_error_marker_amended [⟨"\n\n[System Error: quota]", some "error"⟩]
    ⟨"\n\n[System Error: quota]", some "error"⟩ (by decide) (by decide)
    (by decide)).1

/-- **C4.**  Evaluation at the failing input: when the planner returns valid
JSON that is not an object (here the array `[1, 2]`), the inner handler does
yield the malformed-output warning, but `planner_decision` has already been
rebound to the array, so the later `planner_decision.get("action")` raises
`AttributeError`; the outer handler turns it into a terminal Error event and
the run never reaches SYNTHESIZE and produces no Token — contradicting the
intended (and elsewhere implemented) fallback to `ANSWER_DIRECTLY`. -/
theorem C4_malformed_planner_bug :
    (execute_workflow_stream ⟨[], 3600, 1000⟩ 0 "make a ci pipeline" "Standard Operations"
        none
        ⟨Except.ok [], Except.ok [("content", "[1, 2]")],
         Except.ok (JValue.jarr [JValue.jnum 1, JValue.jnum 2]),
         Except.ok "S", [⟨"hi", none⟩], none⟩).events
      = [Event.thought "Step 1: Retrieving conversation history from PostgreSQL...",
         Event.thought "Step 2: Appending latest input to active memory buffer...",
         Event.thought "Step 3: Consulting AI Planner for Standard Operations strategy...",
         Event.thought "Step 3 Warning: Planner response malformed. Defaulting to direct answer block.",
         Event.error "AttributeError: planner decision object has no attribute 'get'"] := by
  decide

/-- No event of the empty list is an error event. -/
theorem noError_nil : ∀ e ∈ ([] : List Event), e.isErrorEvent = false := by
  simp

/-- Error-freeness is preserved by consing a non-error event. -/
theorem noError_cons {x : Event} {l : List Event} (hx : x.isErrorEvent = false)
    (hl : ∀ e ∈ l, e.isErrorEvent = false) : ∀ e ∈ x :: l, e.isErrorEvent = false := by
  intro e he
  rcases List.mem_cons.mp he with rfl | h
  · exact hx
  · exact hl e h

/-- Error-freeness is preserved by append. -/
theorem noError_append {l1 l2 : List Event} (h1 : ∀ e ∈ l1, e.isErrorEvent = false)
    (h2 : ∀ e ∈ l2, e.isErrorEvent = false) : ∀ e ∈ l1 ++ l2, e.isErrorEvent = false := by
  intro e he
  rcases List.mem_append.mp he with h | h
  · exact h1 e h
  · exact h2 e h

/-- The Step 1–2 events are Thoughts only. -/
theorem historyPhase_noError (sid : Option String) (h : Except String (List Msg)) :
    ∀ e ∈ (historyPhase sid h).fst, e.isErrorEvent = false := by
  cases sid with
  | none => simp [historyPhase]
  | some s =>
    cases h with
    | ok l =>
      intro e he
      simp [historyPhase] at he
      subst he
      rfl
    | error m =>
      intro e he
      simp [historyPhase] at he
      subst he
      rfl

/-- The Step 3 parse phase always emits exactly one Thought. -/
theorem parsePhase_thought (x : Except String JValue) :
    ∃ s, (parsePhase x).snd = [Event.thought s] := by
  cases x with
  | error m => exact ⟨_, rfl⟩
  | ok v =>
    cases v with
    | jobj fields =>
      cases hj : jlookup fields "action" with
      | some a =>
        exact ⟨"Step 3 Complete: Intent identified as " ++ pyStr a ++ ". Reason: "
            ++ pyStr ((jlookup fields "reason").getD JValue.jnull),
          by simp [parsePhase, hj]⟩
      | none =>
        exact ⟨"Step 3 Warning: Planner response malformed. Defaulting to direct answer block.",
          by simp [parsePhase, hj, plannerWarning]⟩
    | jnull => exact ⟨_, rfl⟩
    | jbool b => exact ⟨_, rfl⟩
    | jnum n => exact ⟨_, rfl⟩
    | jstr s => exact ⟨_, rfl⟩
    | jarr xs => exact ⟨_, rfl⟩

/-- The Step 4 events are Thoughts and one Action — never an error event. -/
theorem featurePhase_noError (fields : List (String × JValue)) (g : Except String String) :
    ∀ e ∈ (featurePhase fields g).fst, e.isErrorEvent = false := by
  by_cases ha : actionIsRunFeature fields = true
  · cases hr : run_feature ((jlookup fields "feature_name").getD JValue.jnull) g with
    | ok r =>
      intro e he
      simp [featurePhase, ha, hr] at he
      rcases he with rfl | rfl | rfl <;> rfl
    | error m =>
      intro e he
      simp [featurePhase, ha, hr] at he
      rcases he with rfl | rfl | rfl <;> rfl
  · simp [featurePhase, ha]

/-- Every run of the non-local pipeline ends in a single terminal event —
an Error event or the `"Workflow Complete."` Thought — preceded only by
non-error events. -/
theorem pipelineEvents_shape (ui mode : String) (sid : Option String) (o : WorkflowOracle) :
    ∃ p t, pipelineEvents ui mode sid o = p ++ [t] ∧
      (∀ e ∈ p, e.isErrorEvent = false) ∧
      (t.isErrorEvent = true ∨ t = Event.thought "Workflow Complete.") := by
  have hhist := historyPhase_noError sid o.history
  obtain ⟨ws, hws⟩ := parsePhase_thought o.planner_parsed
  cases hp : o.planner with
  | error msg =>
    refine ⟨Event.thought "Step 1: Retrieving conversation history from PostgreSQL..."
        :: (historyPhase sid o.history).fst
        ++ [Event.thought "Step 2: Appending latest input to active memory buffer...",
            Event.thought ("Step 3: Consulting AI Planner for " ++ mode ++ " strategy...")],
      Event.error msg, ?_, ?_, Or.inl rfl⟩
    · simp [pipelineEvents, hp, List.append_assoc]
    · exact noError_cons rfl (noError_append hhist (noError_cons rfl (noError_cons rfl noError_nil)))
  | ok pr =>
    cases hdec : (parsePhase o.planner_parsed).fst with
    | jobj fields =>
      have hfeat := featurePhase_noError fields o.feature_gen
      have hcons := consumeChunks_noError o.chunks
      by_cases hbroke : (consumeChunks o.chunks).snd = false
      · cases hfault : o.stream_fault with
        | some f =>
          refine ⟨Event.thought "Step 1: Retrieving conversation history from PostgreSQL..."
              :: (historyPhase sid o.history).fst
              ++ [Event.thought "Step 2: Appending latest input to active memory buffer...",
                  Event.thought ("Step 3: Consulting AI Planner for " ++ mode ++ " strategy..."),
                  Event.thought ws]
              ++ (featurePhase fields o.feature_gen).fst
              ++ [Event.thought "Step 5: Synthesizing final response output..."]
              ++ (consumeChunks o.chunks).fst,
            Event.error f, ?_, ?_, Or.inl rfl⟩
          · simp [pipelineEvents, hp, hdec, hws, hbroke, hfault, List.append_assoc]
          · refine noError_cons rfl ?_
            refine noError_append (noError_append (noError_append
              (noError_append hhist ?_) hfeat) ?_) hcons
            · exact noError_cons rfl (noError_cons rfl (noError_cons rfl noError_nil))
            · exact noError_cons rfl noError_nil
        | none =>
          refine ⟨Event.thought "Step 1: Retrieving conversation history from PostgreSQL..."
              :: (historyPhase sid o.history).fst
              ++ [Event.thought "Step 2: Appending latest input to active memory buffer...",
                  Event.thought ("Step 3: Consulting AI Planner for " ++ mode ++ " strategy..."),
                  Event.thought ws]
              ++ (featurePhase fields o.feature_gen).fst
              ++ [Event.thought "Step 5: Synthesizing final response output..."]
              ++ (consumeChunks o.chunks).fst
              ++ [Event.thought "Step 5 Complete: Response stream finished.",
                  Event.thought "Step 7: Persisting interaction to PostgreSQL..."],
            Event.thought "Workflow Complete.", ?_, ?_, Or.inr rfl⟩
          · simp [pipelineEvents, hp, hdec, hws, hbroke, hfault, completionEvents,
              List.append_assoc]
          · refine noError_cons rfl ?_
            refine noError_append (noError_append (noError_append (noError_append
              (noError_append hhist ?_) hfeat) ?_) hcons) ?_
            · exact noError_cons rfl (noError_cons rfl (noError_cons rfl noError_nil))
            · exact noError_cons rfl noError_nil
            · exact noError_cons rfl (noError_cons rfl noError_nil)
      · have hb : (consumeChunks o.chunks).snd = true := by
          revert hbroke
          cases (consumeChunks o.chunks).snd <;> simp
        refine ⟨Event.thought "Step 1: Retrieving conversation history from PostgreSQL..."
            :: (historyPhase sid o.history).fst
            ++ [Event.thought "Step 2: Appending latest input to active memory buffer...",
                Event.thought ("Step 3: Consulting AI Planner for " ++ mode ++ " strategy..."),
                Event.thought ws]
            ++ (featurePhase fields o.feature_gen).fst
            ++ [Event.thought "Step 5: Synthesizing final response output..."]
            ++ (consumeChunks o.chunks).fst
            ++ [Event.thought "Step 5 Complete: Response stream finished.",
                Event.thought "Step 7: Persisting interaction to PostgreSQL..."],
          Event.thought "Workflow Complete.", ?_, ?_, Or.inr rfl⟩
        · simp [pipelineEvents, hp, hdec, hws, hb, completionEvents, List.append_assoc]
        · refine noError_cons rfl ?_
          refine noError_append (noError_append (noError_append (noError_append
            (noError_append hhist ?_) hfeat) ?_) hcons) ?_
          · exact noError_cons rfl (noError_cons rfl (noError_cons rfl noError_nil))
          · exact noError_cons rfl noError_nil
          · exact noError_cons rfl (noError_cons rfl noError_nil)
    | jnull =>
      refine ⟨Event.thought "Step 1: Retrieving conversation history from PostgreSQL..."
          :: (historyPhase sid o.history).fst
          ++ [Event.thought "Step 2: Appending latest input to active memory buffer...",
              Event.thought ("Step 3: Consulting AI Planner for " ++ mode ++ " strategy..."),
              Event.thought ws],
        Event.error "AttributeError: planner decision object has no attribute 'get'",
        ?_, ?_, Or.inl rfl⟩
      · simp [pipelineEvents, hp, hdec, hws, List.append_assoc]
      · exact noError_cons rfl (noError_append hhist
          (noError_cons rfl (noError_cons rfl (noError_cons rfl noError_nil))))
    | jbool b =>
      refine ⟨Event.thought "Step 1: Retrieving conversation history from PostgreSQL..."
          :: (historyPhase sid o.history).fst
          ++ [Event.thought "Step 2: Appending latest input to active memory buffer...",
              Event.thought ("Step 3: Consulting AI Planner for " ++ mode ++ " strategy..."),
              Event.thought ws],
        Event.error "AttributeError: planner decision object has no attribute 'get'",
        ?_, ?_, Or.inl rfl⟩
      · simp [pipelineEvents, hp, hdec, hws, List.append_assoc]
      · exact noError_cons rfl (noError_append hhist
          (noError_cons rfl (noError_cons rfl (noError_cons rfl noError_nil))))
    | jnum n =>
      refine ⟨Event.thought "Step 1: Retrieving conversation history from PostgreSQL..."
          :: (historyPhase sid o.history).fst
          ++ [Event.thought "Step 2: Appending latest input to active memory buffer...",
              Event.thought ("Step 3: Consulting AI Planner for " ++ mode ++ " strategy..."),
              Event.thought ws],
        Event.error "AttributeError: planner decision object has no attribute 'get'",
        ?_, ?_, Or.inl rfl⟩
      · simp [pipelineEvents, hp, hdec, hws, List.append_assoc]
      · exact noError_cons rfl (noError_append hhist
          (noError_cons rfl (noError_cons rfl (noError_cons rfl noError_nil))))
    | jstr s =>
      refine ⟨Event.thought "Step 1: Retrieving conversation history from PostgreSQL..."
          :: (historyPhase sid o.history).fst
          ++ [Event.thought "Step 2: Appending latest input to active memory buffer...",
              Event.thought ("Step 3: Consulting AI Planner for " ++ mode ++ " strategy..."),
              Event.thought ws],
        Event.error "AttributeError: planner decision object has no attribute 'get'",
        ?_, ?_, Or.inl rfl⟩
      · simp [pipelineEvents, hp, hdec, hws, List.append_assoc]
      · exact noError_cons rfl (noError_append hhist
          (noError_cons rfl (noError_cons rfl (noError_cons rfl noError_nil))))
    | jarr xs =>
      refine ⟨Event.thought "Step 1: Retrieving conversation history from PostgreSQL..."
          :: (historyPhase sid o.history).fst
          ++ [Event.thought "Step 2: Appending latest input to active memory buffer...",
              Event.thought ("Step 3: Consulting AI Planner for " ++ mode ++ " strategy..."),
              Event.thought ws],
        Event.error "AttributeError: planner decision object has no attribute 'get'",
        ?_, ?_, Or.inl rfl⟩
      · simp [pipelineEvents, hp, hdec, hws, List.append_assoc]
      · exact noError_cons rfl (noError_append hhist
          (noError_cons rfl (noError_cons rfl (noError_cons rfl noError_nil))))

/-- If every cache payload is falsy or carries a `content` entry (true of
every payload the repository ever stores), then every local answer of
`route_request` carries a `content` entry. -/
theorem route_hit_content (c : ResponseCache) (ui mode : String) (now : Nat) (lr : Payload)
    (hc : ∀ e ∈ c.cache, e.data = [] ∨ ∃ v, dictGet e.data "content" = some v)
    (h : (route_request c ui mode now).fst = some lr) :
    ∃ v, dictGet lr "content" = some v := by
  have hlpd : ∀ (s : String) (t : Nat) (lr' : Payload),
      localPatternDecision s t = some lr' → ∃ v, dictGet lr' "content" = some v := by
    intro s t lr' hl
    unfold localPatternDecision at hl
    split_ifs at hl with h1 h2 h3
    · obtain rfl := Option.some.inj hl
      exact ⟨statusContent t, rfl⟩
    · obtain rfl := Option.some.inj hl
      exact ⟨_, rfl⟩
    · obtain rfl := Option.some.inj hl
      exact ⟨_, rfl⟩
  cases hfind : findEntry c.cache (generate_key ui mode) with
  | none =>
    have hr : (route_request c ui mode now).fst
        = localPatternDecision (pyStrip (pyLower ui)) now := by
      simp [route_request, ResponseCache.get, hfind]
    rw [hr] at h
    exact hlpd _ _ _ h
  | some e =>
    by_cases hexp : now - e.timestamp > c.ttl_seconds
    · have hr : (route_request c ui mode now).fst
          = localPatternDecision (pyStrip (pyLower ui)) now := by
        simp [route_request, ResponseCache.get, hfind, hexp]
      rw [hr] at h
      exact hlpd _ _ _ h
    · have hget : ResponseCache.get c ui mode now = (some e.data, c) := by
        simp [ResponseCache.get, hfind, hexp]
      by_cases hd : e.data.isEmpty = true
      · have hr : (route_request c ui mode now).fst
            = localPatternDecision (pyStrip (pyLower ui)) now := by
          simp [route_request, hget, hd]
        rw [hr] at h
        exact hlpd _ _ _ h
      · have hr : (route_request c ui mode now).fst
            = some (dictSet e.data "source" "cache") := by
          simp [route_request, hget, hd]
        rw [hr] at h
        obtain rfl := Option.some.inj h
        rcases hc e (findEntry_mem hfind) with hnil | ⟨v, hv⟩
        · rw [hnil] at hd
          exact absurd rfl hd
        · refine ⟨v, ?_⟩
          rw [dictGet_dictSet_ne _ _ _ _ (by decide)]
          exact hv

/-- **C2.** For every user input, cache state whose stored payloads are
falsy or carry a `content` entry (all payloads the system writes do), and
every behavior of the external collaborators, `execute_workflow_stream`
never lets an exception escape to the consumer, and its event sequence ends
either in the normal terminal event (the local-hit Token or the
`"Workflow Complete."` Thought) or in exactly one Error event, with no
Error event anywhere earlier. -/
theorem C2_stream_well_formed (c : ResponseCache) (now : Nat) (ui mode : String)
    (sid : Option String) (o : WorkflowOracle)
    (hc : ∀ e ∈ c.cache, e.data = [] ∨ ∃ v, dictGet e.data "content" = some v) :
    (execute_workflow_stream c now ui mode sid o).raised = none ∧
    ∃ p t, (execute_workflow_stream c now ui mode sid o).events = p ++ [t] ∧
      (∀ e ∈ p, e.isErrorEvent = false) ∧
      (t.isErrorEvent = true ∨ t = Event.thought "Workflow Complete."
        ∨ ∃ s, t = Event.token s) := by
  cases hroute : (route_request c ui "standard" now).fst with
  | none =>
    rw [execute_on_miss c now ui mode sid o hroute]
    obtain ⟨p, t, hpt, hp, ht⟩ := pipelineEvents_shape ui mode sid o
    exact ⟨rfl, p, t, hpt, hp, ht.imp id Or.inl⟩
  | some lr =>
    obtain ⟨v, hv⟩ := route_hit_content c ui "standard" now lr hc hroute
    rw [execute_on_hit c now ui mode sid o lr v hroute hv]
    refine ⟨rfl, [Event.thought ("Query matched local knowledge base within " ++ mode
        ++ " context. Executing rapid response protocol.")], Event.token v, rfl,
      noError_cons rfl noError_nil, Or.inr (Or.inr ⟨v, rfl⟩)⟩

/-- Witness for `C2_stream_well_formed` on an empty cache, a failing
planner, and the input `"diagnose the build"`. -/
theorem C2_stream_well_formed_witness :
    (execute_workflow_stream ⟨[], 3600, 1000⟩ 0 "diagnose the build" "Standard Operations"
        none ⟨Except.ok [], Except.error "LLM down", Except.error "no parse",
              Except.ok "S", [], none⟩).raised = none :=
  (C2_stream_well_formed ⟨[], 3600, 1000⟩ 0 "diagnose the build" "Standard Operations"
    none ⟨Except.ok [], Except.error "LLM down", Except.error "no parse",
          Except.ok "S", [], none⟩ (by simp)).1
